import Mathlib

/-!
Verification of `spectral_factor_polo` (src/spectral_factor_polo.py).

The source is a single pure numeric function operating on numpy
floating-point values (scalars or arrays).  We embed its numerics as
`FVal`: an exact real number together with the IEEE special values
`inf`, `-inf` and `nan`, with the arithmetic of numpy doubles
(rounding and overflow abstracted away, special-value propagation kept).
The three pvlib atmosphere functions are external collaborators and are
modelled as an abstract record of black-box functions.  Fallible Python
behaviour (raise ValueError / KeyError / IndexError) is modelled with
`Except`.
-/

open scoped Classical

/-- A numpy double, abstracted: an exact real, or one of the IEEE
special values. -/
inductive FVal where
  | num : ℝ → FVal
  | inf : FVal
  | ninf : FVal
  | nan : FVal

namespace FVal

/-- IEEE addition. -/
noncomputable def add : FVal → FVal → FVal
  | nan, _ => nan
  | _, nan => nan
  | inf, ninf => nan
  | ninf, inf => nan
  | inf, _ => inf
  | _, inf => inf
  | ninf, _ => ninf
  | _, ninf => ninf
  | num x, num y => num (x + y)

/-- IEEE multiplication. -/
noncomputable def mul : FVal → FVal → FVal
  | nan, _ => nan
  | _, nan => nan
  | num x, num y => num (x * y)
  | num x, inf => if 0 < x then inf else if x < 0 then ninf else nan
  | num x, ninf => if 0 < x then ninf else if x < 0 then inf else nan
  | inf, num y => if 0 < y then inf else if y < 0 then ninf else nan
  | ninf, num y => if 0 < y then ninf else if y < 0 then inf else nan
  | inf, inf => inf
  | inf, ninf => ninf
  | ninf, inf => ninf
  | ninf, ninf => inf

/-- IEEE division (an unsigned real zero behaves as +0, as in numpy
default arithmetic). -/
noncomputable def div : FVal → FVal → FVal
  | nan, _ => nan
  | _, nan => nan
  | num x, num y =>
      if y = 0 then (if 0 < x then inf else if x < 0 then ninf else nan)
      else num (x / y)
  | num _, inf => num 0
  | num _, ninf => num 0
  | inf, num y => if 0 ≤ y then inf else ninf
  | ninf, num y => if 0 ≤ y then ninf else inf
  | inf, inf => nan
  | inf, ninf => nan
  | ninf, inf => nan
  | ninf, ninf => nan

/-- IEEE power, following np.power on doubles: a negative base with a
non-integral exponent gives nan; pow(x, 0) = 1 and pow(1, y) = 1 for
every x, y including nan. -/
noncomputable def fpow : FVal → FVal → FVal
  | num x, num y =>
      if y = 0 then num 1
      else if 0 < x then num (x ^ y)
      else if x = 0 then (if 0 < y then num 0 else inf)
      else if (⌊y⌋ : ℝ) = y then num (x ^ ⌊y⌋) else nan
  | num x, inf => if x = 1 ∨ x = -1 then num 1 else if -1 < x ∧ x < 1 then num 0 else inf
  | num x, ninf => if x = 1 ∨ x = -1 then num 1 else if -1 < x ∧ x < 1 then inf else num 0
  | num x, nan => if x = 1 then num 1 else nan
  | inf, num y => if y = 0 then num 1 else if 0 < y then inf else num 0
  | ninf, num y =>
      if y = 0 then num 1
      else if 0 < y then (if (⌊y⌋ : ℝ) = y ∧ Odd ⌊y⌋ then ninf else inf)
      else num 0
  | inf, inf => inf
  | inf, ninf => num 0
  | inf, nan => nan
  | ninf, inf => inf
  | ninf, ninf => num 0
  | ninf, nan => nan
  | nan, num y => if y = 0 then num 1 else nan
  | nan, _ => nan

/-- IEEE square root (np.sqrt): nan on negative arguments. -/
noncomputable def sqrt : FVal → FVal
  | num x => if x < 0 then nan else num (Real.sqrt x)
  | inf => inf
  | ninf => nan
  | nan => nan

noncomputable instance : Add FVal := ⟨FVal.add⟩
noncomputable instance : Mul FVal := ⟨FVal.mul⟩
noncomputable instance : Div FVal := ⟨FVal.div⟩
noncomputable instance : Pow FVal FVal := ⟨FVal.fpow⟩

/-- A value is non-finite when it is one of the three special values. -/
def isNonFinite : FVal → Bool
  | num _ => false
  | _ => true

end FVal

/-- The Python exceptions the source can raise: `ValueError` from the
argument guards, `KeyError` from the technology-dictionary lookup,
`IndexError` from indexing a too-short coefficients sequence. -/
inductive PyError where
  | valueError : String → PyError
  | keyError : String → PyError
  | indexError : PyError
deriving DecidableEq

/-- The external pvlib.atmosphere collaborators, consumed as black-box
numeric functions. -/
structure Atmosphere where
  get_relative_airmass : FVal → FVal
  alt2pres : FVal → FVal
  get_absolute_airmass : FVal → FVal → FVal

/-- Technology coefficient dictionary `_coefficients` (table A), the
six mismatch-expression fit parameters per module type, in source
order. -/
noncomputable def _coefficients (module_type : String) : Option (List FVal) :=
  if module_type = "cdte" then
    some [FVal.num (-0.0009), FVal.num 46.80, FVal.num 49.20,
          FVal.num (-0.87), FVal.num 0.00041, FVal.num 0.053]
  else if module_type = "monosi" then
    some [FVal.num 0.0027, FVal.num 10.34, FVal.num 9.48,
          FVal.num 0.307, FVal.num 0.00077, FVal.num 0.006]
  else if module_type = "cigs" then
    some [FVal.num 0.0017, FVal.num 2.33, FVal.num 1.30,
          FVal.num 0.11, FVal.num 0.00098, FVal.num (-0.0177)]
  else if module_type = "asi" then
    some [FVal.num 0.0024, FVal.num 7.32, FVal.num 7.09,
          FVal.num (-0.72), FVal.num (-0.0013), FVal.num 0.089]
  else none

/-- Albedo-correction coefficient dictionary `c` (table B), three fit
parameters per module type, in source order. -/
noncomputable def c (module_type : String) : Option (FVal × FVal × FVal) :=
  if module_type = "asi" then some (FVal.num 0.0056, FVal.num (-0.020), FVal.num 1.014)
  else if module_type = "cigs" then some (FVal.num (-0.0009), FVal.num (-0.0003), FVal.num 1)
  else if module_type = "cdte" then some (FVal.num 0.0021, FVal.num (-0.01), FVal.num 1.01)
  else if module_type = "monosi" then some (FVal.num 0, FVal.num (-0.003), FVal.num 1.0)
  else none

/-- Airmass ratio of source lines 67-70:
am_aoi = get_relative_airmass(aoi); pressure = alt2pres(altitude);
am90 = get_absolute_airmass(am_aoi, pressure); Ram = am90/airmass_absolute.
Note the relative airmass is evaluated at the caller-supplied `aoi`. -/
noncomputable def ramOf (atm : Atmosphere) (aoi altitude airmass_absolute : FVal) : FVal :=
  let am_aoi := atm.get_relative_airmass aoi
  let pressure := atm.alt2pres altitude
  let am90 := atm.get_absolute_airmass am_aoi pressure
  am90 / airmass_absolute

/-- The mismatch expression of source line 98.  It reads exactly the
entries coeff[0] .. coeff[5] of the coefficients sequence; a sequence
with fewer than six entries raises a Python IndexError. -/
noncomputable def smm_of (coeff : List FVal) (Ram aod500 precipitable_water : FVal) :
    Except PyError FVal :=
  match coeff with
  | c0 :: c1 :: c2 :: c3 :: c4 :: c5 :: _ =>
      .ok (c0 * Ram + c1 / (c2 + Ram ^ c3) + c4 / aod500
            + c5 * FVal.sqrt precipitable_water)
  | _ => .error .indexError

/-- The ground-albedo correction polynomial of source line 101. -/
noncomputable def g_of (c_albedo : FVal × FVal × FVal) (albedo : FVal) : FVal :=
  c_albedo.1 * (albedo / FVal.num 0.2) ^ FVal.num 2
    + c_albedo.2.1 * (albedo / FVal.num 0.2) + c_albedo.2.2

/-- The source function `spectral_factor_polo`, scalar inputs.  The
argument guards come first (lines 61-65); an unknown module type fails
the dictionary lookup of line 90 with a KeyError; on the explicit
coefficients path the albedo correction uses the neutral triple
(0, 0, 1) and albedo is overwritten with 0.2 (lines 93-95); the result
is g * smm (line 104). -/
noncomputable def spectral_factor_polo (atm : Atmosphere)
    (precipitable_water airmass_absolute aod500 aoi altitude : FVal)
    (module_type : Option String) (coefficients : Option (List FVal))
    (albedo : FVal) : Except PyError FVal :=
  match module_type, coefficients with
  | none, none =>
      .error (.valueError "Must provide either `module_type` or `coefficients`")
  | some _, some _ =>
      .error (.valueError "Only one of `module_type` and `coefficients` should be provided")
  | some mt, none =>
      match _coefficients mt, c mt with
      | some coeff, some c_albedo =>
          Except.map (fun smm => g_of c_albedo albedo * smm)
            (smm_of coeff (ramOf atm aoi altitude airmass_absolute) aod500 precipitable_water)
      | none, _ => .error (.keyError mt)
      | some _, none => .error (.keyError mt)
  | none, some coeff =>
      Except.map (fun smm => g_of (FVal.num 0, FVal.num 0, FVal.num 1) (FVal.num 0.2) * smm)
        (smm_of coeff (ramOf atm aoi altitude airmass_absolute) aod500 precipitable_water)

/-- Vectorized airmass ratio: numpy broadcasting of the scalar am90
over an array of caller-supplied absolute airmass values. -/
noncomputable def ramOf_vec (atm : Atmosphere) (aoi altitude : FVal)
    (airmass_absolute : List FVal) : List FVal :=
  let am_aoi := atm.get_relative_airmass aoi
  let pressure := atm.alt2pres altitude
  let am90 := atm.get_absolute_airmass am_aoi pressure
  airmass_absolute.map (fun a => am90 / a)

/-- Vectorized mismatch expression of source line 98 when Ram is an
array and the remaining operands are scalars: every numpy operation
applies element-wise, scalar operands broadcasting. -/
noncomputable def smm_of_vec (coeff : List FVal) (Ram : List FVal)
    (aod500 precipitable_water : FVal) : Except PyError (List FVal) :=
  match coeff with
  | c0 :: c1 :: c2 :: c3 :: c4 :: c5 :: _ =>
      let t1 := Ram.map (fun r => c0 * r)
      let t2 := Ram.map (fun r => c1 / (c2 + r ^ c3))
      let t3 := c4 / aod500
      let t4 := c5 * FVal.sqrt precipitable_water
      .ok (((t1.zipWith (fun a b => a + b) t2).map (fun s => s + t3)).map (fun s => s + t4))
  | _ => .error .indexError

/-- The source function on an array of `airmass_absolute` values with
all other inputs scalar: the same code, under numpy array semantics. -/
noncomputable def spectral_factor_polo_vec (atm : Atmosphere)
    (precipitable_water : FVal) (airmass_absolute : List FVal)
    (aod500 aoi altitude : FVal)
    (module_type : Option String) (coefficients : Option (List FVal))
    (albedo : FVal) : Except PyError (List FVal) :=
  match module_type, coefficients with
  | none, none =>
      .error (.valueError "Must provide either `module_type` or `coefficients`")
  | some _, some _ =>
      .error (.valueError "Only one of `module_type` and `coefficients` should be provided")
  | some mt, none =>
      match _coefficients mt, c mt with
      | some coeff, some c_albedo =>
          Except.map (fun smm => smm.map (fun s => g_of c_albedo albedo * s))
            (smm_of_vec coeff (ramOf_vec atm aoi altitude airmass_absolute)
              aod500 precipitable_water)
      | none, _ => .error (.keyError mt)
      | some _, none => .error (.keyError mt)
  | none, some coeff =>
      Except.map (fun smm =>
          smm.map (fun s => g_of (FVal.num 0, FVal.num 0, FVal.num 1) (FVal.num 0.2) * s))
        (smm_of_vec coeff (ramOf_vec atm aoi altitude airmass_absolute)
          aod500 precipitable_water)

/-- Spec formula for smm, written from the words of the spec:
smm = c0*Ram + c1/(c2 + Ram**c3) + c4/aod500 + c5*sqrt(precipitable_water). -/
noncomputable def smm_spec (c0 c1 c2 c3 c4 c5 Ram aod500 precipitable_water : FVal) : FVal :=
  c0 * Ram + c1 / (c2 + Ram ^ c3) + c4 / aod500 + c5 * FVal.sqrt precipitable_water

/-- Spec formula for the albedo correction, written from the words of
the spec: g = b0*(albedo/0.2)^2 + b1*(albedo/0.2) + b2. -/
noncomputable def g_spec (b0 b1 b2 albedo : FVal) : FVal :=
  b0 * (albedo / FVal.num 0.2) ^ FVal.num 2 + b1 * (albedo / FVal.num 0.2) + b2

/-- A concrete atmosphere used to instantiate theorems: the relative
airmass function is the identity, the absolute airmass function returns
its first argument, the pressure function is constant. -/
noncomputable def atmId : Atmosphere :=
  ⟨fun x => x, fun _ => FVal.num 0, fun r _ => r⟩

/-- A concrete explicit coefficient list making smm collapse to Ram:
smm = 1*Ram + 0/(1 + Ram**1) + 0/aod500 + 0*sqrt(pw) = Ram. -/
noncomputable def csLin : List FVal :=
  [FVal.num 1, FVal.num 0, FVal.num 1, FVal.num 1, FVal.num 0, FVal.num 0]

namespace FVal

lemma add_def (x y : FVal) : x + y = FVal.add x y := rfl

lemma mul_def (x y : FVal) : x * y = FVal.mul x y := rfl

lemma div_def (x y : FVal) : x / y = FVal.div x y := rfl

lemma pow_def (x y : FVal) : x ^ y = FVal.fpow x y := rfl

@[simp] lemma num_add_num (x y : ℝ) : num x + num y = num (x + y) := rfl

@[simp] lemma num_mul_num (x y : ℝ) : num x * num y = num (x * y) := rfl

lemma num_div_num (x y : ℝ) (h : y ≠ 0) : num x / num y = num (x / y) := by
  rw [div_def]; simp [div, h]

lemma num_pow_num_of_pos (x y : ℝ) (h : 0 < x) : num x ^ num y = num (x ^ y) := by
  rw [pow_def]
  unfold fpow
  rcases eq_or_ne y 0 with hy | hy
  · simp [hy, Real.rpow_zero]
  · simp [hy, h]

lemma sqrt_num_of_nonneg (x : ℝ) (h : 0 ≤ x) : sqrt (num x) = num (Real.sqrt x) := by
  unfold sqrt
  simp [not_lt.2 h]

lemma sqrt_num_of_neg (x : ℝ) (h : x < 0) : sqrt (num x) = nan := by
  unfold sqrt
  simp [h]

lemma one_mul_fval (v : FVal) : num 1 * v = v := by
  rw [mul_def]
  cases v <;> simp [mul, zero_lt_one]

lemma add_nan (x : FVal) : x + nan = nan := by
  rw [add_def]; cases x <;> rfl

lemma mul_nan (x : FVal) : x * nan = nan := by
  rw [mul_def]; cases x <;> rfl

lemma isNonFinite_add_left (x y : FVal) (h : x.isNonFinite = true) :
    (x + y).isNonFinite = true := by
  rw [add_def]
  cases x <;> cases y <;> simp_all [add, isNonFinite]

lemma isNonFinite_add_right (x y : FVal) (h : y.isNonFinite = true) :
    (x + y).isNonFinite = true := by
  rw [add_def]
  cases x <;> cases y <;> simp_all [add, isNonFinite]

lemma isNonFinite_mul_right (x y : FVal) (h : y.isNonFinite = true) :
    (x * y).isNonFinite = true := by
  rw [mul_def]
  cases x <;> cases y <;> simp_all [mul, isNonFinite] <;> split_ifs <;> simp [isNonFinite]

lemma isNonFinite_mul_left (x y : FVal) (h : x.isNonFinite = true) :
    (x * y).isNonFinite = true := by
  rw [mul_def]
  cases x <;> cases y <;> simp_all [mul, isNonFinite] <;> split_ifs <;> simp [isNonFinite]

lemma isNonFinite_div_num_zero (x : FVal) : (x / num 0).isNonFinite = true := by
  rw [div_def]
  cases x <;> simp [div, isNonFinite] <;> split_ifs <;> simp [isNonFinite]

lemma num_pow_num_two (x : ℝ) : num x ^ num 2 = num (x ^ (2 : ℕ)) := by
  rw [pow_def]
  unfold fpow
  rcases lt_trichotomy x 0 with hx | hx | hx
  · have hfl : (⌊(2 : ℝ)⌋ : ℝ) = 2 := by norm_num
    have : ¬ (0 < x) := by linarith
    have hne : x ≠ 0 := ne_of_lt hx
    simp only [if_neg (by norm_num : ¬ ((2 : ℝ) = 0)), if_neg this, if_neg hne, if_pos hfl]
    congr 1
    rw [show ⌊(2 : ℝ)⌋ = ((2 : ℕ) : ℤ) by norm_num, zpow_natCast]
  · subst hx
    simp only [if_neg (by norm_num : ¬ ((2 : ℝ) = 0)), lt_irrefl, if_neg (not_lt.2 le_rfl),
      if_pos rfl, if_pos (by norm_num : (0 : ℝ) < 2)]
    norm_num
  · simp only [if_neg (by norm_num : ¬ ((2 : ℝ) = 0)), if_pos hx]
    congr 1
    rw [show ((2 : ℝ)) = ((2 : ℕ) : ℝ) by norm_num, Real.rpow_natCast]

end FVal

/-- The neutral albedo correction of the explicit-coefficients path
evaluates to exactly 1. -/
lemma g_neutral : g_of (FVal.num 0, FVal.num 0, FVal.num 1) (FVal.num 0.2) = FVal.num 1 := by
  unfold g_of
  rw [FVal.num_div_num _ _ (by norm_num)]
  rw [show ((0.2 : ℝ) / 0.2) = 1 by norm_num]
  rw [FVal.num_pow_num_of_pos _ _ (by norm_num)]
  rw [Real.one_rpow]
  norm_num

/-- Real-argument evaluation of the albedo correction polynomial. -/
lemma g_of_num (r0 r1 r2 a : ℝ) :
    g_of (FVal.num r0, FVal.num r1, FVal.num r2) (FVal.num a)
      = FVal.num (r0 * (a / 0.2) ^ (2 : ℕ) + r1 * (a / 0.2) + r2) := by
  unfold g_of
  rw [FVal.num_div_num _ _ (by norm_num), FVal.num_pow_num_two]
  simp

/-- C5 counterexample: at albedo = 0.2 the quotient albedo/0.2 is 1,
so g is the sum of all three table-B coefficients, not the third one
alone: for monosi it is 0.997, not 1.0.  Moreover g is not monotonic in
albedo for every type: for cdte it is 1.0021 at albedo 0.2, drops to
0.9984 at 0.4 and rises again to 0.9989 at 0.6. -/
theorem albedo_correction_at_reference_counterexample :
    c "monosi" = some (FVal.num 0, FVal.num (-0.003), FVal.num 1.0)
    ∧ g_of (FVal.num 0, FVal.num (-0.003), FVal.num 1.0) (FVal.num 0.2) = FVal.num 0.997
    ∧ FVal.num 0.997 ≠ FVal.num 1.0
    ∧ g_of (FVal.num 0.0021, FVal.num (-0.01), FVal.num 1.01) (FVal.num 0.2)
        = FVal.num 1.0021
    ∧ g_of (FVal.num 0.0021, FVal.num (-0.01), FVal.num 1.01) (FVal.num 0.4)
        = FVal.num 0.9984
    ∧ g_of (FVal.num 0.0021, FVal.num (-0.01), FVal.num 1.01) (FVal.num 0.6)
        = FVal.num 0.9989
    ∧ (0.9984 : ℝ) < 1.0021 ∧ (0.9984 : ℝ) < 0.9989 := by
  refine ⟨rfl, ?_, ?_, ?_, ?_, ?_, by norm_num, by norm_num⟩
  · rw [g_of_num]; norm_num
  · intro h; injection h with h1; norm_num at h1
  · rw [g_of_num]; norm_num
  · rw [g_of_num]; norm_num
  · rw [g_of_num]; norm_num

/-- C5 (amended): g is the quadratic polynomial
b0*(albedo/0.2)^2 + b1*(albedo/0.2) + b2 in albedo/0.2; at
albedo = 0.2 it equals the sum b0 + b1 + b2 of the three table-B
coefficients (the quotient albedo/0.2 being 1), so the returned
modifier there equals (b0+b1+b2) * smm; g equals the third coefficient
alone at albedo = 0, where the other terms vanish.  Monotonicity in
albedo does not hold for every type (see the counterexample). -/
theorem albedo_correction_quadratic (r0 r1 r2 : ℝ) :
    (∀ a : ℝ, g_of (FVal.num r0, FVal.num r1, FVal.num r2) (FVal.num a)
        = FVal.num (r0 * (a / 0.2) ^ (2 : ℕ) + r1 * (a / 0.2) + r2))
    ∧ g_of (FVal.num r0, FVal.num r1, FVal.num r2) (FVal.num 0.2)
        = FVal.num (r0 + r1 + r2)
    ∧ g_of (FVal.num r0, FVal.num r1, FVal.num r2) (FVal.num 0) = FVal.num r2
    ∧ ∀ (atm : Atmosphere) (pw am aod aoi alt : FVal) (mt : String) (ks : List FVal),
        _coefficients mt = some ks →
        c mt = some (FVal.num r0, FVal.num r1, FVal.num r2) →
        spectral_factor_polo atm pw am aod aoi alt (some mt) none (FVal.num 0.2)
          = Except.map (fun s => FVal.num (r0 + r1 + r2) * s)
              (smm_of ks (ramOf atm aoi alt am) aod pw) := by
  have h02 : g_of (FVal.num r0, FVal.num r1, FVal.num r2) (FVal.num 0.2)
      = FVal.num (r0 + r1 + r2) := by
    rw [g_of_num]; norm_num
  refine ⟨fun a => g_of_num r0 r1 r2 a, h02, ?_, ?_⟩
  · rw [g_of_num]; norm_num
  · intro atm pw am aod aoi alt mt ks hA hB
    simp [spectral_factor_polo, hA, hB, h02]

/-- Witness for the amended C5 at monosi with concrete inputs. -/
theorem albedo_correction_quadratic_witness :
    _coefficients "monosi" = some [FVal.num 0.0027, FVal.num 10.34, FVal.num 9.48,
        FVal.num 0.307, FVal.num 0.00077, FVal.num 0.006]
    ∧ c "monosi" = some (FVal.num 0, FVal.num (-0.003), FVal.num 1.0)
    ∧ spectral_factor_polo atmId (FVal.num 1) (FVal.num 1) (FVal.num 1) (FVal.num 1)
        (FVal.num 1) (some "monosi") none (FVal.num 0.2)
      = Except.map (fun s => FVal.num ((0 : ℝ) + -0.003 + 1.0) * s)
          (smm_of [FVal.num 0.0027, FVal.num 10.34, FVal.num 9.48,
              FVal.num 0.307, FVal.num 0.00077, FVal.num 0.006]
            (ramOf atmId (FVal.num 1) (FVal.num 1) (FVal.num 1)) (FVal.num 1) (FVal.num 1)) :=
  ⟨rfl, rfl,
   (albedo_correction_quadratic 0 (-0.003) 1.0).2.2.2 atmId (FVal.num 1) (FVal.num 1)
     (FVal.num 1) (FVal.num 1) (FVal.num 1) "monosi" _ rfl rfl⟩

/-- C2 counterexample: the relative airmass entering Ram is evaluated
at the caller-supplied angle of incidence, not at a fixed reference
angle of 90 degrees.  With an identity atmosphere, aoi = 30,
airmass_absolute = 1 and coefficients making smm collapse to Ram, the
call returns 30; the claim predicts the value from the 90 degree
airmass, namely 90. -/
theorem ram_at_90_counterexample :
    spectral_factor_polo atmId (FVal.num 1) (FVal.num 1) (FVal.num 1) (FVal.num 30)
        (FVal.num 0) none (some csLin) (FVal.num 0.5) = .ok (FVal.num 30)
    ∧ atmId.get_absolute_airmass (atmId.get_relative_airmass (FVal.num 90))
        (atmId.alt2pres (FVal.num 0)) / FVal.num 1 = FVal.num 90
    ∧ spectral_factor_polo atmId (FVal.num 1) (FVal.num 1) (FVal.num 1) (FVal.num 30)
        (FVal.num 0) none (some csLin) (FVal.num 0.5) ≠ .ok (FVal.num 90) := by
  have hram : ramOf atmId (FVal.num 30) (FVal.num 0) (FVal.num 1) = FVal.num 30 := by
    unfold ramOf atmId
    rw [FVal.num_div_num _ _ (by norm_num)]
    norm_num
  have hsmm : smm_of csLin (FVal.num 30) (FVal.num 1) (FVal.num 1) = .ok (FVal.num 30) := by
    show Except.ok (FVal.num 1 * FVal.num 30
        + FVal.num 0 / (FVal.num 1 + FVal.num 30 ^ FVal.num 1)
        + FVal.num 0 / FVal.num 1 + FVal.num 0 * FVal.sqrt (FVal.num 1))
      = Except.ok (FVal.num 30)
    rw [FVal.num_pow_num_of_pos _ _ (by norm_num), Real.rpow_one,
      FVal.sqrt_num_of_nonneg _ (by norm_num), Real.sqrt_one]
    simp only [FVal.num_add_num, FVal.num_mul_num]
    rw [FVal.num_div_num _ _ (by norm_num), FVal.num_div_num _ _ (by norm_num)]
    norm_num
  have hcall : spectral_factor_polo atmId (FVal.num 1) (FVal.num 1) (FVal.num 1)
      (FVal.num 30) (FVal.num 0) none (some csLin) (FVal.num 0.5) = .ok (FVal.num 30) := by
    simp [spectral_factor_polo, hram, hsmm, Except.map, g_neutral, FVal.one_mul_fval]
  refine ⟨hcall, ?_, ?_⟩
  · show FVal.num 90 / FVal.num 1 = FVal.num 90
    rw [FVal.num_div_num _ _ (by norm_num)]
    norm_num
  · rw [hcall]
    intro h
    injection h with h1
    injection h1 with h2
    norm_num at h2

/-- C2 (amended): for every call on a valid module-type path the
airmass ratio entering the mismatch expression is
Ram = A / airmass_absolute, where A is the absolute airmass obtained
from the relative airmass at the caller-supplied angle of incidence and
the pressure derived from altitude, and the caller-supplied
airmass_absolute is the denominator. -/
theorem ram_is_A_over_airmass (atm : Atmosphere) (pw am aod aoi alt alb : FVal)
    (mt : String) (ks : List FVal) (b : FVal × FVal × FVal)
    (hA : _coefficients mt = some ks) (hB : c mt = some b) :
    spectral_factor_polo atm pw am aod aoi alt (some mt) none alb
      = Except.map (fun s => g_of b alb * s)
          (smm_of ks
            (atm.get_absolute_airmass (atm.get_relative_airmass aoi) (atm.alt2pres alt) / am)
            aod pw) := by
  simp [spectral_factor_polo, hA, hB, ramOf]

/-- Witness for the amended C2 at cigs with concrete inputs. -/
theorem ram_is_A_over_airmass_witness :
    _coefficients "cigs" = some [FVal.num 0.0017, FVal.num 2.33, FVal.num 1.30,
        FVal.num 0.11, FVal.num 0.00098, FVal.num (-0.0177)]
    ∧ c "cigs" = some (FVal.num (-0.0009), FVal.num (-0.0003), FVal.num 1)
    ∧ spectral_factor_polo atmId (FVal.num 1) (FVal.num 2) (FVal.num 1) (FVal.num 30)
        (FVal.num 0) (some "cigs") none (FVal.num 0.2)
      = Except.map (fun s => g_of (FVal.num (-0.0009), FVal.num (-0.0003), FVal.num 1)
            (FVal.num 0.2) * s)
          (smm_of [FVal.num 0.0017, FVal.num 2.33, FVal.num 1.30,
              FVal.num 0.11, FVal.num 0.00098, FVal.num (-0.0177)]
            (atmId.get_absolute_airmass (atmId.get_relative_airmass (FVal.num 30))
              (atmId.alt2pres (FVal.num 0)) / FVal.num 2)
            (FVal.num 1) (FVal.num 1)) :=
  ⟨rfl, rfl,
   ram_is_A_over_airmass atmId (FVal.num 1) (FVal.num 2) (FVal.num 1) (FVal.num 30)
     (FVal.num 0) (FVal.num 0.2) "cigs" _ _ rfl rfl⟩

/-- C1: for every call with a valid module_type (one of cdte, monosi,
cigs, asi), the returned modifier equals g * smm, where
smm = c0*Ram + c1/(c2 + Ram**c3) + c4/aod500 + c5*sqrt(precipitable_water)
with c0..c5 the six table-A coefficients for that type in that fixed
order, and g = b0*(albedo/0.2)^2 + b1*(albedo/0.2) + b2 with b0,b1,b2
the three table-B coefficients for that type. -/
theorem modifier_eq_g_mul_smm (atm : Atmosphere)
    (pw am aod aoi alt alb : FVal) (mt : String)
    (k0 k1 k2 k3 k4 k5 b0 b1 b2 : FVal)
    (hA : _coefficients mt = some [k0, k1, k2, k3, k4, k5])
    (hB : c mt = some (b0, b1, b2)) :
    spectral_factor_polo atm pw am aod aoi alt (some mt) none alb
      = .ok (g_spec b0 b1 b2 alb
          * smm_spec k0 k1 k2 k3 k4 k5 (ramOf atm aoi alt am) aod pw) := by
  simp [spectral_factor_polo, hA, hB, smm_of, Except.map, g_of, g_spec, smm_spec]

/-- Witness for C1 at module_type cdte with concrete inputs. -/
theorem modifier_eq_g_mul_smm_witness :
    _coefficients "cdte" = some [FVal.num (-0.0009), FVal.num 46.80, FVal.num 49.20,
        FVal.num (-0.87), FVal.num 0.00041, FVal.num 0.053]
    ∧ c "cdte" = some (FVal.num 0.0021, FVal.num (-0.01), FVal.num 1.01)
    ∧ spectral_factor_polo atmId (FVal.num 1) (FVal.num 1) (FVal.num 1) (FVal.num 1)
        (FVal.num 1) (some "cdte") none (FVal.num 0.2)
      = .ok (g_spec (FVal.num 0.0021) (FVal.num (-0.01)) (FVal.num 1.01) (FVal.num 0.2)
          * smm_spec (FVal.num (-0.0009)) (FVal.num 46.80) (FVal.num 49.20)
              (FVal.num (-0.87)) (FVal.num 0.00041) (FVal.num 0.053)
              (ramOf atmId (FVal.num 1) (FVal.num 1) (FVal.num 1)) (FVal.num 1) (FVal.num 1)) :=
  ⟨by rfl, by rfl,
   modifier_eq_g_mul_smm atmId (FVal.num 1) (FVal.num 1) (FVal.num 1) (FVal.num 1)
     (FVal.num 1) (FVal.num 0.2) "cdte" _ _ _ _ _ _ _ _ _
     (by rfl) (by rfl)⟩

/-- C3: on the explicit-coefficients path the returned value does not
depend on the caller-supplied albedo: the albedo correction is the
neutral triple evaluated at the forced albedo 0.2, so g = 1 and the
result is the smm term alone; in particular two calls identical except
for albedo return equal results. -/
theorem explicit_coefficients_ignore_albedo (atm : Atmosphere)
    (pw am aod aoi alt : FVal) (cs : List FVal) (alb : FVal) :
    spectral_factor_polo atm pw am aod aoi alt none (some cs) alb
      = smm_of cs (ramOf atm aoi alt am) aod pw
    ∧ ∀ alb', spectral_factor_polo atm pw am aod aoi alt none (some cs) alb
      = spectral_factor_polo atm pw am aod aoi alt none (some cs) alb' := by
  have key : ∀ a : FVal, spectral_factor_polo atm pw am aod aoi alt none (some cs) a
      = smm_of cs (ramOf atm aoi alt am) aod pw := by
    intro a
    show Except.map _ _ = _
    cases h : smm_of cs (ramOf atm aoi alt am) aod pw <;>
      simp [Except.map, g_neutral, FVal.one_mul_fval]
  exact ⟨key alb, fun alb' => (key alb).trans (key alb').symm⟩

/-- C4: for a known module type, the call with that type equals the
explicit-coefficients call on exactly that type's table-A values, up to
the type's table-B albedo correction factor applied to the result. -/
theorem module_type_vs_explicit_coefficients (atm : Atmosphere)
    (pw am aod aoi alt alb : FVal) (mt : String)
    (cs : List FVal) (b : FVal × FVal × FVal)
    (hA : _coefficients mt = some cs) (hB : c mt = some b) :
    spectral_factor_polo atm pw am aod aoi alt (some mt) none alb
      = Except.map (fun s => g_of b alb * s)
          (spectral_factor_polo atm pw am aod aoi alt none (some cs) alb) := by
  show _ = Except.map _ (Except.map _ _)
  simp only [spectral_factor_polo, hA, hB]
  cases h : smm_of cs (ramOf atm aoi alt am) aod pw <;>
    simp [Except.map, g_neutral, FVal.one_mul_fval]

/-- Witness for C4 at module_type asi with concrete inputs. -/
theorem module_type_vs_explicit_coefficients_witness :
    _coefficients "asi" = some [FVal.num 0.0024, FVal.num 7.32, FVal.num 7.09,
        FVal.num (-0.72), FVal.num (-0.0013), FVal.num 0.089]
    ∧ c "asi" = some (FVal.num 0.0056, FVal.num (-0.020), FVal.num 1.014)
    ∧ spectral_factor_polo atmId (FVal.num 1) (FVal.num 1) (FVal.num 1) (FVal.num 1)
        (FVal.num 1) (some "asi") none (FVal.num 0.5)
      = Except.map (fun s => g_of (FVal.num 0.0056, FVal.num (-0.020), FVal.num 1.014)
            (FVal.num 0.5) * s)
          (spectral_factor_polo atmId (FVal.num 1) (FVal.num 1) (FVal.num 1) (FVal.num 1)
            (FVal.num 1) none
            (some [FVal.num 0.0024, FVal.num 7.32, FVal.num 7.09,
              FVal.num (-0.72), FVal.num (-0.0013), FVal.num 0.089]) (FVal.num 0.5)) :=
  ⟨by rfl, by rfl,
   module_type_vs_explicit_coefficients atmId (FVal.num 1) (FVal.num 1) (FVal.num 1)
     (FVal.num 1) (FVal.num 1) (FVal.num 0.5) "asi" _ _
     (by rfl) (by rfl)⟩

/-- C6: supplying both module_type and coefficients, or neither, fails
with the respective ValueError, for every input and every atmosphere,
before any lookup: the error is the same even for an unrecognized
module type. -/
theorem exclusive_arguments_valueError (atm : Atmosphere)
    (pw am aod aoi alt alb : FVal) :
    (spectral_factor_polo atm pw am aod aoi alt none none alb
      = .error (.valueError "Must provide either `module_type` or `coefficients`"))
    ∧ ∀ (mt : String) (cs : List FVal),
        spectral_factor_polo atm pw am aod aoi alt (some mt) (some cs) alb
          = .error (.valueError
              "Only one of `module_type` and `coefficients` should be provided") :=
  ⟨rfl, fun _ _ => rfl⟩

/-- C7: a module_type outside the four known keys (with no explicit
coefficients) fails with the KeyError carrying that key. -/
theorem unknown_module_type_keyError (atm : Atmosphere)
    (pw am aod aoi alt alb : FVal) (mt : String)
    (h1 : mt ≠ "cdte") (h2 : mt ≠ "monosi") (h3 : mt ≠ "cigs") (h4 : mt ≠ "asi") :
    spectral_factor_polo atm pw am aod aoi alt (some mt) none alb
      = .error (.keyError mt) := by
  simp [spectral_factor_polo, _coefficients, c, h1, h2, h3, h4]

/-- Elementwise identity for the vectorized mismatch expression: the
zipWith/map composition over a common source list is one map. -/
lemma zip_map_aux (l : List FVal) (f g : FVal → FVal) (t3 t4 : FVal) :
    (((l.map f).zipWith (fun a b => a + b) (l.map g)).map (fun s => s + t3)).map
        (fun s => s + t4)
      = l.map (fun r => f r + g r + t3 + t4) := by
  induction l with
  | nil => rfl
  | cons x xs ih => simp_all

/-- The vectorized mismatch computation agrees elementwise with the
scalar one, under any postprocessing function G applied elementwise. -/
lemma map_smm_vec_elementwise (G : FVal → FVal) (coeff : List FVal) (atm : Atmosphere)
    (aoi alt : FVal) (ams : List FVal) (aod pw : FVal) (vs : List FVal)
    (h : Except.map (fun smm => smm.map (fun s => G s))
          (smm_of_vec coeff (ramOf_vec atm aoi alt ams) aod pw) = .ok vs) :
    vs.length = ams.length
    ∧ ∀ i (hi : i < ams.length) (hv : i < vs.length),
        Except.map (fun smm => G smm)
            (smm_of coeff (ramOf atm aoi alt (ams.get ⟨i, hi⟩)) aod pw)
          = .ok (vs.get ⟨i, hv⟩) := by
  rcases coeff with _ | ⟨c0, _ | ⟨c1, _ | ⟨c2, _ | ⟨c3, _ | ⟨c4, _ | ⟨c5, rest⟩⟩⟩⟩⟩⟩
  · simp [smm_of_vec, Except.map] at h
  · simp [smm_of_vec, Except.map] at h
  · simp [smm_of_vec, Except.map] at h
  · simp [smm_of_vec, Except.map] at h
  · simp [smm_of_vec, Except.map] at h
  · simp [smm_of_vec, Except.map] at h
  · have hvec : smm_of_vec (c0 :: c1 :: c2 :: c3 :: c4 :: c5 :: rest)
        (ramOf_vec atm aoi alt ams) aod pw
        = .ok ((ramOf_vec atm aoi alt ams).map (fun r =>
            c0 * r + c1 / (c2 + r ^ c3) + c4 / aod + c5 * FVal.sqrt pw)) := by
      exact congrArg Except.ok (zip_map_aux (ramOf_vec atm aoi alt ams) _ _ _ _)
    rw [hvec] at h
    simp only [Except.map, Except.ok.injEq] at h
    subst h
    constructor
    · simp [ramOf_vec]
    · intro i hi hv
      simp [smm_of, ramOf, ramOf_vec, Except.map, List.getElem_map]

/-- C9: a call on an array of airmass_absolute values of length N
(other inputs scalar) that returns an array returns one of length N
whose i-th element is the result of the independent scalar call on the
i-th airmass value. -/
theorem vectorized_elementwise (atm : Atmosphere) (pw : FVal) (ams : List FVal)
    (aod aoi alt alb : FVal) (module_type : Option String)
    (coefficients : Option (List FVal)) (vs : List FVal)
    (h : spectral_factor_polo_vec atm pw ams aod aoi alt module_type coefficients alb
          = .ok vs) :
    vs.length = ams.length
    ∧ ∀ i (hi : i < ams.length) (hv : i < vs.length),
        spectral_factor_polo atm pw (ams.get ⟨i, hi⟩) aod aoi alt module_type coefficients alb
          = .ok (vs.get ⟨i, hv⟩) := by
  rcases module_type with _ | mt
  · rcases coefficients with _ | cs
    · exact absurd h (by simp [spectral_factor_polo_vec])
    · exact map_smm_vec_elementwise _ cs atm aoi alt ams aod pw vs h
  · rcases coefficients with _ | cs
    · rcases hA : _coefficients mt with _ | ks
      · refine absurd h ?_
        simp [spectral_factor_polo_vec, hA]
      · rcases hB : c mt with _ | cb
        · refine absurd h ?_
          simp [spectral_factor_polo_vec, hA, hB]
        · simp only [spectral_factor_polo_vec, hA, hB] at h
          have hres := map_smm_vec_elementwise _ ks atm aoi alt ams aod pw vs h
          refine ⟨hres.1, fun i hi hv => ?_⟩
          simp only [spectral_factor_polo, hA, hB]
          exact hres.2 i hi hv
    · exact absurd h (by simp [spectral_factor_polo_vec])

/-- Witness for C9: a two-element airmass array on the explicit
coefficients path, with concrete values. -/
theorem vectorized_elementwise_witness :
    spectral_factor_polo_vec atmId (FVal.num 1) [FVal.num 1, FVal.num 2] (FVal.num 1)
        (FVal.num 2) (FVal.num 0) none (some csLin) (FVal.num 0.2)
      = .ok [FVal.num 2, FVal.num 1]
    ∧ ([FVal.num 2, FVal.num 1] : List FVal).length
        = ([FVal.num 1, FVal.num 2] : List FVal).length
    ∧ ∀ i (hi : i < ([FVal.num 1, FVal.num 2] : List FVal).length)
        (hv : i < ([FVal.num 2, FVal.num 1] : List FVal).length),
        spectral_factor_polo atmId (FVal.num 1)
            (([FVal.num 1, FVal.num 2] : List FVal).get ⟨i, hi⟩) (FVal.num 1)
            (FVal.num 2) (FVal.num 0) none (some csLin) (FVal.num 0.2)
          = .ok (([FVal.num 2, FVal.num 1] : List FVal).get ⟨i, hv⟩) := by
  have hvec : spectral_factor_polo_vec atmId (FVal.num 1) [FVal.num 1, FVal.num 2]
      (FVal.num 1) (FVal.num 2) (FVal.num 0) none (some csLin) (FVal.num 0.2)
      = .ok [FVal.num 2, FVal.num 1] := by
    have hr : ramOf_vec atmId (FVal.num 2) (FVal.num 0) [FVal.num 1, FVal.num 2]
        = [FVal.num 2, FVal.num 1] := by
      unfold ramOf_vec atmId
      simp only [List.map_cons, List.map_nil]
      rw [FVal.num_div_num _ _ (by norm_num), FVal.num_div_num _ _ (by norm_num)]
      norm_num
    have hexp : ∀ r : ℝ, 0 < r → FVal.num r ^ FVal.num 1 = FVal.num r := by
      intro r hr0
      rw [FVal.num_pow_num_of_pos _ _ hr0, Real.rpow_one]
    have hs0 : smm_of_vec csLin [FVal.num 2, FVal.num 1] (FVal.num 1) (FVal.num 1)
        = .ok ([FVal.num 2, FVal.num 1].map (fun r =>
            FVal.num 1 * r + FVal.num 0 / (FVal.num 1 + r ^ FVal.num 1)
              + FVal.num 0 / FVal.num 1 + FVal.num 0 * FVal.sqrt (FVal.num 1))) :=
      congrArg Except.ok (zip_map_aux [FVal.num 2, FVal.num 1] _ _ _ _)
    have hs : smm_of_vec csLin [FVal.num 2, FVal.num 1] (FVal.num 1) (FVal.num 1)
        = .ok [FVal.num 2, FVal.num 1] := by
      rw [hs0]
      simp only [List.map_cons, List.map_nil]
      rw [hexp 2 (by norm_num), hexp 1 (by norm_num),
        FVal.sqrt_num_of_nonneg _ (by norm_num), Real.sqrt_one]
      norm_num [FVal.num_div_num]
    show Except.map _ (smm_of_vec csLin
        (ramOf_vec atmId (FVal.num 2) (FVal.num 0) [FVal.num 1, FVal.num 2])
        (FVal.num 1) (FVal.num 1)) = _
    rw [hr, hs]
    show Except.ok _ = _
    rw [g_neutral]
    simp only [List.map_cons, List.map_nil, FVal.one_mul_fval]
  have hres := vectorized_elementwise atmId (FVal.num 1) [FVal.num 1, FVal.num 2]
    (FVal.num 1) (FVal.num 2) (FVal.num 0) (FVal.num 0.2) none (some csLin)
    [FVal.num 2, FVal.num 1] hvec
  exact ⟨hvec, hres.1, hres.2⟩

/-- A list with at least six entries splits into six heads and a
tail. -/
lemma exists_six (l : List FVal) (h : 6 ≤ l.length) :
    ∃ a0 a1 a2 a3 a4 a5 r, l = a0 :: a1 :: a2 :: a3 :: a4 :: a5 :: r := by
  rcases l with _ | ⟨a0, l⟩
  · simp at h
  rcases l with _ | ⟨a1, l⟩
  · simp at h
  rcases l with _ | ⟨a2, l⟩
  · simp at h
  rcases l with _ | ⟨a3, l⟩
  · simp at h
  rcases l with _ | ⟨a4, l⟩
  · simp at h
  rcases l with _ | ⟨a5, l⟩
  · simp at h
  exact ⟨a0, a1, a2, a3, a4, a5, l, rfl⟩

/-- C10: on the explicit-coefficients path only the first six entries
of the coefficients sequence are read: two sequences of length at least
six agreeing on entries 0 to 5 give equal results, while a sequence
with fewer than six entries fails with an IndexError, not a
ValueError. -/
theorem explicit_coefficients_first_six (atm : Atmosphere) (pw am aod aoi alt alb : FVal)
    (cs1 cs2 cs3 : List FVal)
    (h1 : 6 ≤ cs1.length) (h2 : 6 ≤ cs2.length)
    (hag : ∀ i, i < 6 → cs1.get? i = cs2.get? i)
    (h3 : cs3.length < 6) :
    spectral_factor_polo atm pw am aod aoi alt none (some cs1) alb
      = spectral_factor_polo atm pw am aod aoi alt none (some cs2) alb
    ∧ spectral_factor_polo atm pw am aod aoi alt none (some cs3) alb
      = .error .indexError := by
  constructor
  · obtain ⟨a0, a1, a2, a3, a4, a5, r1, rfl⟩ := exists_six cs1 h1
    obtain ⟨b0, b1, b2, b3, b4, b5, r2, rfl⟩ := exists_six cs2 h2
    have e0 := hag 0 (by norm_num)
    have e1 := hag 1 (by norm_num)
    have e2 := hag 2 (by norm_num)
    have e3 := hag 3 (by norm_num)
    have e4 := hag 4 (by norm_num)
    have e5 := hag 5 (by norm_num)
    simp only [List.get?] at e0 e1 e2 e3 e4 e5
    injection e0 with e0
    injection e1 with e1
    injection e2 with e2
    injection e3 with e3
    injection e4 with e4
    injection e5 with e5
    subst e0; subst e1; subst e2; subst e3; subst e4; subst e5
    rfl
  · rcases cs3 with _ | ⟨a0, cs3⟩
    · rfl
    rcases cs3 with _ | ⟨a1, cs3⟩
    · rfl
    rcases cs3 with _ | ⟨a2, cs3⟩
    · rfl
    rcases cs3 with _ | ⟨a3, cs3⟩
    · rfl
    rcases cs3 with _ | ⟨a4, cs3⟩
    · rfl
    rcases cs3 with _ | ⟨a5, cs3⟩
    · rfl
    simp at h3
    omega

/-- Witness for C10: two concrete lists agreeing on the first six
entries (the second has a seventh entry) and a one-entry list. -/
theorem explicit_coefficients_first_six_witness :
    (6 ≤ csLin.length ∧ 6 ≤ (csLin ++ [FVal.num 5]).length
      ∧ (∀ i, i < 6 → csLin.get? i = (csLin ++ [FVal.num 5]).get? i)
      ∧ ([FVal.num 1] : List FVal).length < 6)
    ∧ spectral_factor_polo atmId (FVal.num 1) (FVal.num 1) (FVal.num 1) (FVal.num 1)
        (FVal.num 1) none (some csLin) (FVal.num 0.2)
      = spectral_factor_polo atmId (FVal.num 1) (FVal.num 1) (FVal.num 1) (FVal.num 1)
        (FVal.num 1) none (some (csLin ++ [FVal.num 5])) (FVal.num 0.2)
    ∧ spectral_factor_polo atmId (FVal.num 1) (FVal.num 1) (FVal.num 1) (FVal.num 1)
        (FVal.num 1) none (some [FVal.num 1]) (FVal.num 0.2)
      = .error .indexError := by
  have hag : ∀ i, i < 6 → csLin.get? i = (csLin ++ [FVal.num 5]).get? i := by
    intro i hi
    interval_cases i <;> rfl
  have hres := explicit_coefficients_first_six atmId (FVal.num 1) (FVal.num 1) (FVal.num 1)
    (FVal.num 1) (FVal.num 1) (FVal.num 0.2) csLin (csLin ++ [FVal.num 5]) [FVal.num 1]
    (by norm_num [csLin]) (by norm_num [csLin]) hag (by norm_num)
  exact ⟨⟨by norm_num [csLin], by norm_num [csLin], hag, by norm_num⟩, hres.1, hres.2⟩

/-- Degenerate aerosol depth: a zero aod500 makes the postprocessed
mismatch value non-finite through the c4/aod500 term. -/
lemma map_smm_nonfinite_aod (g k0 k1 k2 k3 k4 k5 : FVal) (rest : List FVal) (Ram pw : FVal) :
    ∃ v, Except.map (fun s => g * s)
        (smm_of (k0 :: k1 :: k2 :: k3 :: k4 :: k5 :: rest) Ram (FVal.num 0) pw) = .ok v
      ∧ v.isNonFinite = true := by
  refine ⟨g * (k0 * Ram + k1 / (k2 + Ram ^ k3) + k4 / FVal.num 0 + k5 * FVal.sqrt pw),
    rfl, ?_⟩
  apply FVal.isNonFinite_mul_right
  apply FVal.isNonFinite_add_left
  apply FVal.isNonFinite_add_right
  exact FVal.isNonFinite_div_num_zero _

/-- Degenerate precipitable water: a negative value makes the
postprocessed mismatch value exactly NaN through the square root. -/
lemma map_smm_nan_pw (g k0 k1 k2 k3 k4 k5 : FVal) (rest : List FVal) (Ram aod : FVal)
    (p : ℝ) (hp : p < 0) :
    Except.map (fun s => g * s)
        (smm_of (k0 :: k1 :: k2 :: k3 :: k4 :: k5 :: rest) Ram aod (FVal.num p))
      = .ok FVal.nan := by
  have hs : FVal.sqrt (FVal.num p) = FVal.nan := FVal.sqrt_num_of_neg p hp
  simp [smm_of, Except.map, hs, FVal.mul_nan, FVal.add_nan]

/-- Degenerate airmass ratio: a non-finite Ram makes the postprocessed
mismatch value non-finite through the c0*Ram term. -/
lemma map_smm_nonfinite_ram (g k0 k1 k2 k3 k4 k5 : FVal) (rest : List FVal)
    (Ram aod pw : FVal) (hR : Ram.isNonFinite = true) :
    ∃ v, Except.map (fun s => g * s)
        (smm_of (k0 :: k1 :: k2 :: k3 :: k4 :: k5 :: rest) Ram aod pw) = .ok v
      ∧ v.isNonFinite = true := by
  refine ⟨g * (k0 * Ram + k1 / (k2 + Ram ^ k3) + k4 / aod + k5 * FVal.sqrt pw), rfl, ?_⟩
  apply FVal.isNonFinite_mul_right
  apply FVal.isNonFinite_add_left
  apply FVal.isNonFinite_add_left
  apply FVal.isNonFinite_add_left
  exact FVal.isNonFinite_mul_right _ _ hR

/-- The airmass ratio is non-finite when the caller-supplied absolute
airmass is zero. -/
lemma ramOf_zero_nonFinite (atm : Atmosphere) (aoi alt : FVal) :
    (ramOf atm aoi alt (FVal.num 0)).isNonFinite = true := by
  unfold ramOf
  exact FVal.isNonFinite_div_num_zero _

/-- C8: numerically degenerate inputs raise no error on an
otherwise-valid call, on the module-type path as well as on the
explicit-coefficients path (six or more coefficients): aod500 = 0
returns a non-finite value through the c4/aod500 term; a negative
precipitable_water returns NaN through the square root term;
airmass_absolute = 0 returns a non-finite value through the Ram
division. -/
theorem degenerate_inputs_flow (atm : Atmosphere) (pw am aod aoi alt alb : FVal)
    (mt : String) (k0 k1 k2 k3 k4 k5 : FVal) (b : FVal × FVal × FVal)
    (hA : _coefficients mt = some [k0, k1, k2, k3, k4, k5]) (hB : c mt = some b) :
    (∃ v, spectral_factor_polo atm pw am (FVal.num 0) aoi alt (some mt) none alb = .ok v
        ∧ v.isNonFinite = true)
    ∧ (∀ p : ℝ, p < 0 →
        spectral_factor_polo atm (FVal.num p) am aod aoi alt (some mt) none alb
          = .ok FVal.nan)
    ∧ (∃ v, spectral_factor_polo atm pw (FVal.num 0) aod aoi alt (some mt) none alb = .ok v
        ∧ v.isNonFinite = true)
    ∧ (∀ (u0 u1 u2 u3 u4 u5 : FVal) (rest : List FVal) (alb' : FVal),
        (∃ v, spectral_factor_polo atm pw am (FVal.num 0) aoi alt none
            (some (u0 :: u1 :: u2 :: u3 :: u4 :: u5 :: rest)) alb' = .ok v
          ∧ v.isNonFinite = true)
        ∧ (∀ p : ℝ, p < 0 →
            spectral_factor_polo atm (FVal.num p) am aod aoi alt none
              (some (u0 :: u1 :: u2 :: u3 :: u4 :: u5 :: rest)) alb' = .ok FVal.nan)
        ∧ (∃ v, spectral_factor_polo atm pw (FVal.num 0) aod aoi alt none
            (some (u0 :: u1 :: u2 :: u3 :: u4 :: u5 :: rest)) alb' = .ok v
          ∧ v.isNonFinite = true)) := by
  refine ⟨?_, ?_, ?_, ?_⟩
  · simp only [spectral_factor_polo, hA, hB]
    exact map_smm_nonfinite_aod _ _ _ _ _ _ _ _ _ _
  · intro p hp
    simp only [spectral_factor_polo, hA, hB]
    exact map_smm_nan_pw _ _ _ _ _ _ _ _ _ _ p hp
  · simp only [spectral_factor_polo, hA, hB]
    exact map_smm_nonfinite_ram _ _ _ _ _ _ _ _ _ _ _ (ramOf_zero_nonFinite atm aoi alt)
  · intro u0 u1 u2 u3 u4 u5 rest alb'
    refine ⟨?_, ?_, ?_⟩
    · simp only [spectral_factor_polo]
      exact map_smm_nonfinite_aod _ _ _ _ _ _ _ _ _ _
    · intro p hp
      simp only [spectral_factor_polo]
      exact map_smm_nan_pw _ _ _ _ _ _ _ _ _ _ p hp
    · simp only [spectral_factor_polo]
      exact map_smm_nonfinite_ram _ _ _ _ _ _ _ _ _ _ _ (ramOf_zero_nonFinite atm aoi alt)

/-- Witness for C8 at monosi: a negative precipitable water value
returns NaN. -/
theorem degenerate_inputs_flow_witness :
    _coefficients "monosi" = some [FVal.num 0.0027, FVal.num 10.34, FVal.num 9.48,
        FVal.num 0.307, FVal.num 0.00077, FVal.num 0.006]
    ∧ c "monosi" = some (FVal.num 0, FVal.num (-0.003), FVal.num 1.0)
    ∧ (-1 : ℝ) < 0
    ∧ spectral_factor_polo atmId (FVal.num (-1)) (FVal.num 1) (FVal.num 1) (FVal.num 1)
        (FVal.num 1) (some "monosi") none (FVal.num 0.2) = .ok FVal.nan :=
  ⟨rfl, rfl, by norm_num,
   (degenerate_inputs_flow atmId (FVal.num 1) (FVal.num 1) (FVal.num 1) (FVal.num 1)
       (FVal.num 1) (FVal.num 0.2) "monosi" _ _ _ _ _ _ _ rfl rfl).2.1 (-1) (by norm_num)⟩

/-- Witness for C7 on the unknown module type string. -/
theorem unknown_module_type_keyError_witness :
    ("unknown" ≠ "cdte" ∧ "unknown" ≠ "monosi" ∧ "unknown" ≠ "cigs" ∧ "unknown" ≠ "asi")
    ∧ spectral_factor_polo atmId (FVal.num 1) (FVal.num 1) (FVal.num 1) (FVal.num 1)
        (FVal.num 1) (some "unknown") none (FVal.num 0.2)
      = .error (.keyError "unknown") :=
  ⟨⟨by decide, by decide, by decide, by decide⟩,
   unknown_module_type_keyError atmId (FVal.num 1) (FVal.num 1) (FVal.num 1) (FVal.num 1)
     (FVal.num 1) (FVal.num 0.2) "unknown" (by decide) (by decide) (by decide) (by decide)⟩
